import Mathlib

/-!
Shallow embedding of the Cloudflare Worker feedback endpoint
(`worker.js` / the main module): origin allow-listing, CORS headers,
request-body validation, upstream-error forwarding, and defensive
extraction of the model's JSON text from the provider envelope.

JSON/JavaScript values are modelled by `JSValue` (integers stand in for
JS numbers; no claim depends on float formatting).  JavaScript member
access `v.k` throws a TypeError when `v` is `null`, so field access is
`Except Unit (Option JSValue)` with `Option` standing for `undefined`.
The platform's `JSON.parse` / `JSON.stringify` are ambient builtins, not
repository code, so the handler is parameterised over them.
-/

inductive JSValue where
  | null
  | bool (b : Bool)
  | num (n : Int)
  | str (s : String)
  | arr (elems : List JSValue)
  | obj (fields : List (String × JSValue))
deriving Repr

/-- JavaScript truthiness of a JSON value (`null`, `false`, `0`, `""` are
falsy; arrays and objects are always truthy). -/
def truthy : JSValue → Bool
  | .null => false
  | .bool b => b
  | .num n => n != 0
  | .str s => s != ""
  | .arr _ => true
  | .obj _ => true

/-- Property lookup on an object's field list (first match, as in a parsed
JSON object whose keys are unique). -/
def lookupField (fields : List (String × JSValue)) (k : String) : Option JSValue :=
  (fields.find? (fun p => p.1 == k)).map (·.2)

/-- JavaScript member access `v.k`: throws (TypeError) on `null`, yields
`undefined` (`none`) on primitives and arrays, looks up the key on objects. -/
def getField : JSValue → String → Except Unit (Option JSValue)
  | .null, _ => .error ()
  | .obj fields, k => .ok (lookupField fields k)
  | _, _ => .ok none

mutual

/-- JavaScript `String(v)` conversion on JSON values. -/
def jsToString : JSValue → String
  | .null => "null"
  | .bool true => "true"
  | .bool false => "false"
  | .num n => toString n
  | .str s => s
  | .arr xs => String.intercalate "," (jsArrToStrings xs)
  | .obj _ => "[object Object]"

/-- Array toString (`Array.prototype.toString`) element rendering: a `null`
element renders as the empty string, any other element via `String(v)`. -/
def jsArrToStrings : List JSValue → List String
  | [] => []
  | .null :: vs => "" :: jsArrToStrings vs
  | v :: vs => jsToString v :: jsArrToStrings vs

end

/-- JavaScript `x || ""` on a possibly-undefined member value. -/
def jsOrEmptyStr : Option JSValue → JSValue
  | none => .str ""
  | some v => if truthy v then v else .str ""

/-- JavaScript `s.trim()`: strip leading and trailing whitespace.  Defined
by structural recursion over the character list so that it reduces on
concrete inputs. -/
def jsTrim (s : String) : String :=
  String.mk
    (((s.data.dropWhile Char.isWhitespace).reverse.dropWhile
        Char.isWhitespace).reverse)

/-- The worker's coercion `String(x || "").trim()`. -/
def coerceTrim (x : Option JSValue) : String :=
  jsTrim (jsToString (jsOrEmptyStr x))

/-- JavaScript `s.slice(0, n)` (first `n` UTF-16 units; characters in this
model). -/
def jsSlice (s : String) (n : Nat) : String :=
  String.mk (s.data.take n)

/-! ## Origin allow-list (`isAllowedOrigin`) -/

/-- The characters of `"http://localhost:"`, the fixed part of the
development-origin pattern. -/
def localhostPre : List Char := "http://localhost:".data

/-- The regex test `/^http:\/\/localhost:\d+$/.test(origin)`: the whole
string is the fixed part followed by one or more ASCII digits. -/
def isLocalhostOrigin (s : String) : Bool :=
  decide (s.data.take localhostPre.length = localhostPre) &&
  decide (s.data.drop localhostPre.length ≠ []) &&
  (s.data.drop localhostPre.length).all Char.isDigit

/-- The source's `isAllowedOrigin(origin)`: `null` for the empty (falsy)
string, the origin itself for the localhost pattern or the exact production
hostname, else `null`. -/
def isAllowedOrigin (origin : String) : Option String :=
  if origin = "" then none
  else if isLocalhostOrigin origin then some origin
  else if origin = "https://jiang53y.github.io" then some origin
  else none

/-- The source's `corsHeaders(origin)`: the empty header set for a falsy
argument, else the three CORS headers echoing the origin. -/
def corsHeaders : Option String → List (String × String)
  | none => []
  | some o =>
    if o = "" then []
    else
      [("Access-Control-Allow-Origin", o),
       ("Access-Control-Allow-Methods", "POST, OPTIONS"),
       ("Access-Control-Allow-Headers", "Content-Type")]

/-- Truthiness of the JS string-or-null `allowedOrigin` value. -/
def strOptTruthy : Option String → Bool
  | none => false
  | some s => s != ""

/-! ## Input validation (body lines of the handler) -/

inductive ValidationResult where
  | lengthOutOfRange
  | missingObjective
  | valid (responseText learningObjective : String) (criteria : List JSValue)
deriving Repr

/-- The input-validation stage of the handler (the `responseText` /
`learningObjective` / `criteria` extraction and the two 400 checks).
Member access on a `null` body throws, as in JavaScript. -/
def validateBody (body : JSValue) : Except Unit ValidationResult := do
  let rt ← getField body "response_text"
  let responseText := coerceTrim rt
  let lo ← getField body "learning_objective"
  let learningObjective := coerceTrim lo
  let cr ← getField body "criteria"
  let criteria := match cr with
    | some (.arr xs) => xs
    | _ => []
  if responseText.length < 10 || responseText.length > 2000 then
    return .lengthOutOfRange
  else if learningObjective = "" then
    return .missingObjective
  else
    return .valid responseText learningObjective criteria

/-! ## Response extraction (`extractTextFromResponsesOutput`, `jsonText`) -/

/-- The inner-loop test `if (c && typeof c.text === "string" && c.text.trim())`:
the trimmed text of a content part when it is a truthy value whose `text`
member is a non-blank string. -/
def contentPartText (c : JSValue) : Option String :=
  if truthy c then
    match getField c "text" with
    | .ok (some (.str s)) => if jsTrim s = "" then none else some (jsTrim s)
    | _ => none
  else none

/-- The inner `for (const c of content)` loop: first non-blank text part. -/
def scanContent : List JSValue → Option String
  | [] => none
  | c :: rest =>
    match contentPartText c with
    | some s => some s
    | none => scanContent rest

/-- The outer `for (const item of out)` loop; `item.content` throws on a
`null` item, which the surrounding `try` will catch. -/
def scanItems : List JSValue → Except Unit String
  | [] => .ok ""
  | item :: rest => do
    let f ← getField item "content"
    let content := match f with
      | some (.arr xs) => xs
      | _ => []
    match scanContent content with
    | some s => .ok s
    | none => scanItems rest

/-- The source's `extractTextFromResponsesOutput(d)`: scan
`d.output`'s items' content parts for the first non-blank `text`; any
exception during navigation is caught and yields `""`. -/
def extractTextFromResponsesOutput (d : JSValue) : String :=
  match (do
      let f ← getField d "output"
      let out := match f with
        | some (.arr xs) => xs
        | _ => []
      scanItems out : Except Unit String) with
  | .ok s => s
  | .error _ => ""

/-- The `jsonText` computation:
`(typeof data.output_text === "string" && data.output_text.trim()) ||
extractTextFromResponsesOutput(data) || ""`.  The member access
`data.output_text` is outside any `try`, so a `null` envelope throws. -/
def jsonTextOf (data : JSValue) : Except Unit String := do
  let ot ← getField data "output_text"
  let fromTop := match ot with
    | some (.str s) => jsTrim s
    | _ => ""
  if fromTop = "" then
    return extractTextFromResponsesOutput data
  else
    return fromTop

/-! ## The handler -/

inductive Body where
  | empty
  | text (s : String)
  | json (v : JSValue)
deriving Repr

structure HttpResponse where
  status : Nat
  body : Body
  headers : List (String × String)
deriving Repr

structure WorkerRequest where
  method : String
  originHeader : Option String
  bodyJSON : Option JSValue

structure UpstreamResponse where
  ok : Bool
  errText : String
  respJSON : Option JSValue

/-- The worker's `fetch` handler, parameterised over the platform's
`JSON.parse` (`none` = parse threw) and `JSON.stringify`.  `req.bodyJSON`
is the result of `request.json()` (`none` = it threw, the caught 400 path);
`upstream` is the provider's HTTP reply, with `respJSON` the result of
`openaiResp.json()` (`none` = it threw, uncaught).  The result is
`.error ()` when the handler raises an uncaught exception. -/
def fetchHandler (parse : String → Option JSValue) (stringify : JSValue → String)
    (req : WorkerRequest) (apiKey : Option String) (upstream : UpstreamResponse) :
    Except Unit HttpResponse :=
  let origin := req.originHeader.getD ""
  let allowedOrigin := isAllowedOrigin origin
  if req.method = "OPTIONS" then
    .ok { status := 204, body := .empty, headers := corsHeaders allowedOrigin }
  else if req.method ≠ "POST" then
    .ok { status := 405, body := .text "Method not allowed", headers := [] }
  else if strOptTruthy allowedOrigin = false then
    .ok { status := 403,
          body := .json (.obj [("error", .str "Origin not allowed"), ("origin", .str origin)]),
          headers := [("Content-Type", "application/json")] }
  else
    match req.bodyJSON with
    | none =>
      .ok { status := 400, body := .json (.obj [("error", .str "Invalid JSON")]),
            headers := ("Content-Type", "application/json") :: corsHeaders allowedOrigin }
    | some body =>
      match validateBody body with
      | .error e => .error e
      | .ok .lengthOutOfRange =>
        .ok { status := 400,
              body := .json (.obj [("error", .str "Response length out of range")]),
              headers := ("Content-Type", "application/json") :: corsHeaders allowedOrigin }
      | .ok .missingObjective =>
        .ok { status := 400,
              body := .json (.obj [("error", .str "Missing learning_objective")]),
              headers := ("Content-Type", "application/json") :: corsHeaders allowedOrigin }
      | .ok (.valid _responseText _learningObjective _criteria) =>
        if apiKey.getD "" = "" then
          .ok { status := 500,
                body := .json (.obj [("error", .str "Missing OPENAI_API_KEY")]),
                headers := ("Content-Type", "application/json") :: corsHeaders allowedOrigin }
        else if upstream.ok = false then
          .ok { status := 502,
                body := .json (.obj [("error", .str "OpenAI error"),
                                     ("detail", .str (jsSlice upstream.errText 300))]),
                headers := ("Content-Type", "application/json") :: corsHeaders allowedOrigin }
        else
          match upstream.respJSON with
          | none => .error ()
          | some data =>
            match jsonTextOf data with
            | .error e => .error e
            | .ok jsonText =>
              match parse jsonText with
              | none =>
                .ok { status := 500,
                      body := .json
                        (.obj [("error", .str "Model returned non-JSON"),
                               ("raw", .str (jsSlice jsonText 400)),
                               ("openai_response_preview",
                                .str (jsSlice (stringify data) 800))]),
                      headers := ("Content-Type", "application/json") ::
                        corsHeaders allowedOrigin }
              | some parsed =>
                .ok { status := 200, body := .json parsed,
                      headers := ("Content-Type", "application/json") ::
                        corsHeaders allowedOrigin }

/-! ## Helper lemmas -/

theorem aux_take_len (p t : List Char) : (p ++ t).take p.length = p := by
  simp

theorem aux_drop_len (p t : List Char) : (p ++ t).drop p.length = t := by
  simp

theorem aux_pre_ne_nil : localhostPre ≠ [] := by decide

/-- Characterisation of the localhost-origin regex: the string is exactly
the fixed part followed by one or more ASCII digits. -/
theorem aux_localhost_iff (s : String) :
    isLocalhostOrigin s = true ↔
      ∃ ds : List Char, ds ≠ [] ∧ ds.all Char.isDigit = true ∧
        s.data = localhostPre ++ ds := by
  unfold isLocalhostOrigin
  simp only [Bool.and_eq_true, decide_eq_true_eq]
  constructor
  · rintro ⟨⟨htake, hdrop⟩, hall⟩
    refine ⟨s.data.drop localhostPre.length, hdrop, hall, ?_⟩
    conv_lhs => rw [← List.take_append_drop localhostPre.length s.data]
    rw [htake]
  · rintro ⟨ds, hne, hall, hdata⟩
    rw [hdata, aux_take_len, aux_drop_len]
    exact ⟨⟨rfl, hne⟩, hall⟩

/-- An allowed origin is echoed exactly and is either the localhost pattern
or the fixed production hostname. -/
theorem aux_allowed_eq_some {s o : String} (h : isAllowedOrigin s = some o) :
    o = s ∧ s ≠ "" ∧
      (isLocalhostOrigin s = true ∨ s = "https://jiang53y.github.io") := by
  unfold isAllowedOrigin at h
  split_ifs at h with h1 h2 h3
  · exact ⟨(Option.some.injEq _ _ ▸ h).symm, h1, Or.inl h2⟩
  · exact ⟨(Option.some.injEq _ _ ▸ h).symm, h1, Or.inr h3⟩

theorem aux_allowed_ne_star {s o : String} (h : isAllowedOrigin s = some o) :
    o ≠ "*" := by
  obtain ⟨ho, -, hcase⟩ := aux_allowed_eq_some h
  subst ho
  rcases hcase with hl | hg
  · intro hstar
    rw [hstar] at hl
    exact absurd hl (by decide)
  · intro hstar
    rw [hstar] at hg
    exact absurd hg (by decide)

theorem aux_allowed_truthy {s o : String} (h : isAllowedOrigin s = some o) :
    strOptTruthy (isAllowedOrigin s) = true := by
  obtain ⟨ho, hne, -⟩ := aux_allowed_eq_some h
  rw [h, strOptTruthy]
  subst ho
  simp [hne]

theorem aux_cors_of_some {s o : String} (h : isAllowedOrigin s = some o) :
    corsHeaders (isAllowedOrigin s) =
      [("Access-Control-Allow-Origin", o),
       ("Access-Control-Allow-Methods", "POST, OPTIONS"),
       ("Access-Control-Allow-Headers", "Content-Type")] := by
  obtain ⟨ho, hne, -⟩ := aux_allowed_eq_some h
  rw [h, corsHeaders]
  subst ho
  simp [hne]

/-! ## Claim theorems -/

/-- Claim C1: the origin allow-list predicate returns the origin string
itself for every loopback origin `http://localhost:<digits>` with any port
number and for the exact production hostname, and returns the null marker
for every other string (including the empty string and substring, prefix,
and super-string variants of the allowed hostname): matching is exact,
never by substring or prefix. -/
theorem c1_origin_allow_list :
    (∀ ds : List Char, ds ≠ [] → ds.all Char.isDigit = true →
        isAllowedOrigin (String.mk (localhostPre ++ ds)) =
          some (String.mk (localhostPre ++ ds)))
  ∧ isAllowedOrigin "https://jiang53y.github.io" = some "https://jiang53y.github.io"
  ∧ (∀ s : String,
      (¬ ∃ ds : List Char, ds ≠ [] ∧ ds.all Char.isDigit = true ∧
          s.data = localhostPre ++ ds) →
      s ≠ "https://jiang53y.github.io" →
      isAllowedOrigin s = none)
  ∧ isAllowedOrigin "" = none
  ∧ isAllowedOrigin "jiang53y.github.io" = none
  ∧ isAllowedOrigin "https://jiang53y.github.i" = none
  ∧ isAllowedOrigin "https://jiang53y.github.io/" = none
  ∧ isAllowedOrigin "https://jiang53y.github.io.evil.com" = none
  ∧ isAllowedOrigin "evil.com/https://jiang53y.github.io" = none := by
  refine ⟨?_, by decide, ?_, by decide, by decide, by decide, by decide,
    by decide, by decide⟩
  · intro ds hne hall
    have hs : (String.mk (localhostPre ++ ds)) ≠ "" := by
      intro h
      have hdat := congrArg String.data h
      rcases List.append_eq_nil.mp hdat with ⟨hp, -⟩
      exact aux_pre_ne_nil hp
    have hl : isLocalhostOrigin (String.mk (localhostPre ++ ds)) = true :=
      (aux_localhost_iff _).2 ⟨ds, hne, hall, rfl⟩
    unfold isAllowedOrigin
    rw [if_neg hs, if_pos hl]
  · intro s hno hgh
    unfold isAllowedOrigin
    by_cases h1 : s = ""
    · rw [if_pos h1]
    · rw [if_neg h1]
      by_cases h2 : isLocalhostOrigin s = true
      · exact absurd ((aux_localhost_iff s).1 h2) hno
      · rw [if_neg h2, if_neg hgh]

/-- Witness for C1 at the concrete development origin with port 5173. -/
theorem c1_witness :
    isAllowedOrigin "http://localhost:5173" = some "http://localhost:5173" := by
  have h := c1_origin_allow_list.1 "5173".data (by decide) (by decide)
  exact h

/-- Once the method is POST and the origin gate passed, every returned
response carries exactly the Content-Type header followed by the CORS
header set. -/
theorem aux_post_allowed_headers
    (parse : String → Option JSValue) (stringify : JSValue → String)
    (req : WorkerRequest) (apiKey : Option String) (up : UpstreamResponse)
    (hm : req.method = "POST")
    (ho : strOptTruthy (isAllowedOrigin (req.originHeader.getD "")) = true)
    (r : HttpResponse)
    (h : fetchHandler parse stringify req apiKey up = .ok r) :
    r.headers = ("Content-Type", "application/json") ::
      corsHeaders (isAllowedOrigin (req.originHeader.getD "")) := by
  simp only [fetchHandler] at h
  rw [hm, ho] at h
  simp only [reduceIte, String.reduceEq, ne_eq, not_false_iff, not_true,
    Bool.true_eq_false, if_true, if_false] at h
  repeat' split at h
  all_goals first
    | exact Except.noConfusion h
    | (injection h with h'; subst h'; rfl)

/-- Claim C2: for every POST request whose origin passed the allow-list
gate, every response the handler returns carries Access-Control-Allow-Origin
set to exactly the validated origin (never a wildcard),
Access-Control-Allow-Methods POST, OPTIONS and Access-Control-Allow-Headers
Content-Type. -/
theorem c2_cors_on_every_post_response
    (parse : String → Option JSValue) (stringify : JSValue → String)
    (req : WorkerRequest) (apiKey : Option String) (up : UpstreamResponse)
    (o : String) (r : HttpResponse)
    (hm : req.method = "POST")
    (ho : isAllowedOrigin (req.originHeader.getD "") = some o)
    (h : fetchHandler parse stringify req apiKey up = .ok r) :
    ("Access-Control-Allow-Origin", o) ∈ r.headers ∧
    ("Access-Control-Allow-Methods", "POST, OPTIONS") ∈ r.headers ∧
    ("Access-Control-Allow-Headers", "Content-Type") ∈ r.headers ∧
    ("Access-Control-Allow-Origin", "*") ∉ r.headers ∧
    (∀ v, ("Access-Control-Allow-Origin", v) ∈ r.headers → v = o) := by
  have hhead := aux_post_allowed_headers parse stringify req apiKey up hm
    (aux_allowed_truthy ho) r h
  rw [aux_cors_of_some ho] at hhead
  rw [hhead]
  have hstar := aux_allowed_ne_star ho
  refine ⟨by simp, by simp, by simp, ?_, ?_⟩
  · intro hmem
    simp only [List.mem_cons, List.not_mem_nil, or_false, Prod.mk.injEq] at hmem
    rcases hmem with ⟨h1, -⟩ | ⟨-, h2⟩ | ⟨h1, -⟩ | ⟨h1, -⟩
    · exact absurd h1 (by decide)
    · exact hstar h2.symm
    · exact absurd h1 (by decide)
    · exact absurd h1 (by decide)
  · intro v hv
    simp only [List.mem_cons, List.not_mem_nil, or_false, Prod.mk.injEq] at hv
    rcases hv with ⟨h1, -⟩ | ⟨-, h2⟩ | ⟨h1, -⟩ | ⟨h1, -⟩
    · exact absurd h1 (by decide)
    · exact h2
    · exact absurd h1 (by decide)
    · exact absurd h1 (by decide)

/-- Witness for C2: the 400 Invalid JSON response for an allowed localhost
origin carries the echoed origin header and no wildcard. -/
theorem c2_witness :
    ("Access-Control-Allow-Origin", "http://localhost:1") ∈
      ([("Content-Type", "application/json"),
        ("Access-Control-Allow-Origin", "http://localhost:1"),
        ("Access-Control-Allow-Methods", "POST, OPTIONS"),
        ("Access-Control-Allow-Headers", "Content-Type")] :
        List (String × String)) ∧
    ("Access-Control-Allow-Origin", "*") ∉
      ([("Content-Type", "application/json"),
        ("Access-Control-Allow-Origin", "http://localhost:1"),
        ("Access-Control-Allow-Methods", "POST, OPTIONS"),
        ("Access-Control-Allow-Headers", "Content-Type")] :
        List (String × String)) := by
  have h := c2_cors_on_every_post_response (fun _ => none) (fun _ => "")
      { method := "POST", originHeader := some "http://localhost:1", bodyJSON := none }
      none { ok := true, errText := "", respJSON := none }
      "http://localhost:1"
      { status := 400, body := .json (.obj [("error", .str "Invalid JSON")]),
        headers := [("Content-Type", "application/json"),
          ("Access-Control-Allow-Origin", "http://localhost:1"),
          ("Access-Control-Allow-Methods", "POST, OPTIONS"),
          ("Access-Control-Allow-Headers", "Content-Type")] }
      rfl (by decide) rfl
  exact ⟨h.1, h.2.2.2.1⟩

/-- Claim C7: a POST request with a disallowed origin gets 403 with a JSON
body echoing the rejected origin, and the response carries no CORS headers
(its only header is Content-Type). -/
theorem c7_forbidden_origin
    (parse : String → Option JSValue) (stringify : JSValue → String)
    (req : WorkerRequest) (apiKey : Option String) (up : UpstreamResponse)
    (hm : req.method = "POST")
    (ho : strOptTruthy (isAllowedOrigin (req.originHeader.getD "")) = false) :
    fetchHandler parse stringify req apiKey up =
      .ok { status := 403,
            body := .json (.obj [("error", .str "Origin not allowed"),
                                 ("origin", .str (req.originHeader.getD ""))]),
            headers := [("Content-Type", "application/json")] } ∧
    (∀ r, fetchHandler parse stringify req apiKey up = .ok r →
        ∀ k v, (k, v) ∈ r.headers → k = "Content-Type") := by
  have hmain : fetchHandler parse stringify req apiKey up =
      .ok { status := 403,
            body := .json (.obj [("error", .str "Origin not allowed"),
                                 ("origin", .str (req.originHeader.getD ""))]),
            headers := [("Content-Type", "application/json")] } := by
    simp only [fetchHandler]
    rw [hm, ho]
    simp only [reduceIte, String.reduceEq, ne_eq, not_false_iff, not_true,
      Bool.true_eq_false, if_true, if_false]
  refine ⟨hmain, ?_⟩
  intro r hr k v hkv
  rw [hmain] at hr
  injection hr with hr'
  subst hr'
  simp only [List.mem_cons, List.not_mem_nil, or_false, Prod.mk.injEq] at hkv
  exact hkv.1

/-- Witness for C7 at a concrete disallowed origin. -/
theorem c7_witness :
    fetchHandler (fun _ => none) (fun _ => "")
        { method := "POST", originHeader := some "https://evil.example",
          bodyJSON := none }
        none { ok := true, errText := "", respJSON := none } =
      .ok { status := 403,
            body := .json (.obj [("error", .str "Origin not allowed"),
                                 ("origin", .str "https://evil.example")]),
            headers := [("Content-Type", "application/json")] } :=
  (c7_forbidden_origin (fun _ => none) (fun _ => "")
      { method := "POST", originHeader := some "https://evil.example",
        bodyJSON := none }
      none { ok := true, errText := "", respJSON := none }
      rfl (by decide)).1

/-- Claim C8: every OPTIONS request returns 204 with an empty body and CORS
headers computed from the request's Origin header: the full header set when
the origin is allowed, the empty set when it is disallowed or absent. -/
theorem c8_options_preflight
    (parse : String → Option JSValue) (stringify : JSValue → String)
    (req : WorkerRequest) (apiKey : Option String) (up : UpstreamResponse)
    (hm : req.method = "OPTIONS") :
    fetchHandler parse stringify req apiKey up =
      .ok { status := 204, body := .empty,
            headers := corsHeaders (isAllowedOrigin (req.originHeader.getD "")) } ∧
    (∀ o, isAllowedOrigin (req.originHeader.getD "") = some o →
        corsHeaders (isAllowedOrigin (req.originHeader.getD "")) =
          [("Access-Control-Allow-Origin", o),
           ("Access-Control-Allow-Methods", "POST, OPTIONS"),
           ("Access-Control-Allow-Headers", "Content-Type")]) ∧
    (isAllowedOrigin (req.originHeader.getD "") = none →
        corsHeaders (isAllowedOrigin (req.originHeader.getD "")) = []) := by
  refine ⟨?_, ?_, ?_⟩
  · simp only [fetchHandler]
    rw [hm]
    simp only [reduceIte, String.reduceEq, if_true]
  · intro o ho
    exact aux_cors_of_some ho
  · intro hn
    rw [hn]
    rfl

/-- Witness for C8: a concrete OPTIONS preflight from an allowed origin. -/
theorem c8_witness :
    fetchHandler (fun _ => none) (fun _ => "")
        { method := "OPTIONS", originHeader := some "http://localhost:3000",
          bodyJSON := none }
        none { ok := true, errText := "", respJSON := none } =
      .ok { status := 204, body := .empty,
            headers := corsHeaders (isAllowedOrigin
              ((some "http://localhost:3000" : Option String).getD "")) } :=
  (c8_options_preflight (fun _ => none) (fun _ => "")
      { method := "OPTIONS", originHeader := some "http://localhost:3000",
        bodyJSON := none }
      none { ok := true, errText := "", respJSON := none } rfl).1

/-- Total member lookup used to state facts about non-null receivers. -/
def fieldOf (body : JSValue) (k : String) : Option JSValue :=
  match body with
  | .obj fields => lookupField fields k
  | _ => none

theorem aux_fieldOf_obj (fields : List (String × JSValue)) (k : String) :
    fieldOf (.obj fields) k = lookupField fields k := rfl

/-- On a non-null body the validation stage never throws and computes the
coerced, trimmed fields exactly as the source does. -/
theorem aux_validateBody_eq (body : JSValue) (hb : body ≠ .null) :
    validateBody body =
      (if (coerceTrim (fieldOf body "response_text")).length < 10 ||
          (coerceTrim (fieldOf body "response_text")).length > 2000 then
        .ok .lengthOutOfRange
      else if coerceTrim (fieldOf body "learning_objective") = "" then
        .ok .missingObjective
      else
        .ok (.valid (coerceTrim (fieldOf body "response_text"))
          (coerceTrim (fieldOf body "learning_objective"))
          (match fieldOf body "criteria" with
            | some (.arr xs) => xs
            | _ => []))) := by
  cases body <;> first | exact absurd rfl hb | rfl

/-- The trimmed top-level convenience field of the envelope, as tested by
`typeof data.output_text === "string" && data.output_text.trim()`. -/
def topText (d : JSValue) : String :=
  match fieldOf d "output_text" with
  | some (.str s) => jsTrim s
  | _ => ""

/-- On a non-null envelope the extraction pipeline never throws: the trimmed
top-level field when non-blank, else the scanned output items. -/
theorem aux_jsonTextOf_ne_null (d : JSValue) (hd : d ≠ .null) :
    jsonTextOf d =
      if topText d = "" then .ok (extractTextFromResponsesOutput d)
      else .ok (topText d) := by
  cases d <;> first | exact absurd rfl hd | rfl

theorem aux_jsonTextOf_exists (d : JSValue) (hd : d ≠ .null) :
    ∃ s, jsonTextOf d = .ok s := by
  rw [aux_jsonTextOf_ne_null d hd]
  by_cases h : topText d = ""
  · rw [if_pos h]
    exact ⟨_, rfl⟩
  · rw [if_neg h]
    exact ⟨_, rfl⟩

theorem aux_jsSlice_le (s : String) (n : Nat) : (jsSlice s n).length ≤ n := by
  have h : (jsSlice s n).length = (s.data.take n).length := rfl
  rw [h, List.length_take]
  exact min_le_left _ _

/-- Claim C5: response_text is coerced to a string and trimmed, and the
trimmed length must lie within 10..2000 inclusive; lengths 9 and 2001 are
rejected as Response length out of range while 10 and 2000 pass this
check, and the rejection is a 400 with that error body. -/
theorem c5_response_length_bounds :
    (∀ body : JSValue, body ≠ .null →
      (validateBody body = .ok .lengthOutOfRange ↔
        ((coerceTrim (fieldOf body "response_text")).length < 10 ∨
         (coerceTrim (fieldOf body "response_text")).length > 2000)))
  ∧ (∀ body : JSValue, body ≠ .null →
      (coerceTrim (fieldOf body "response_text")).length = 9 ∨
      (coerceTrim (fieldOf body "response_text")).length = 2001 →
      validateBody body = .ok .lengthOutOfRange)
  ∧ (∀ body : JSValue, body ≠ .null →
      (coerceTrim (fieldOf body "response_text")).length = 10 ∨
      (coerceTrim (fieldOf body "response_text")).length = 2000 →
      validateBody body ≠ .ok .lengthOutOfRange)
  ∧ (∀ (parse : String → Option JSValue) (stringify : JSValue → String)
       (req : WorkerRequest) (apiKey : Option String) (up : UpstreamResponse)
       (body : JSValue),
      req.method = "POST" →
      strOptTruthy (isAllowedOrigin (req.originHeader.getD "")) = true →
      req.bodyJSON = some body →
      validateBody body = .ok .lengthOutOfRange →
      fetchHandler parse stringify req apiKey up =
        .ok { status := 400,
              body := .json (.obj [("error", .str "Response length out of range")]),
              headers := ("Content-Type", "application/json") ::
                corsHeaders (isAllowedOrigin (req.originHeader.getD "")) }) := by
  have hiff : ∀ body : JSValue, body ≠ .null →
      (validateBody body = .ok .lengthOutOfRange ↔
        ((coerceTrim (fieldOf body "response_text")).length < 10 ∨
         (coerceTrim (fieldOf body "response_text")).length > 2000)) := by
    intro body hb
    rw [aux_validateBody_eq body hb]
    by_cases hc : (coerceTrim (fieldOf body "response_text")).length < 10 ∨
        (coerceTrim (fieldOf body "response_text")).length > 2000
    · rw [if_pos (by simpa using hc)]
      simp [hc]
    · rw [if_neg (by simpa using hc)]
      constructor
      · intro h
        split at h <;> (injection h with h'; exact ValidationResult.noConfusion h')
      · intro h
        exact absurd h hc
  refine ⟨hiff, ?_, ?_, ?_⟩
  · intro body hb h
    exact (hiff body hb).2 (by omega)
  · intro body hb h hcon
    have := (hiff body hb).1 hcon
    omega
  · intro parse stringify req apiKey up body hm ho hb hv
    simp only [fetchHandler]
    rw [hm, ho]
    simp only [reduceIte, String.reduceEq, ne_eq, not_false_iff, not_true,
      Bool.true_eq_false, if_true, if_false]
    rw [hb]
    dsimp only
    rw [hv]

/-- Witness for C5 at trimmed lengths 9 and 10. -/
theorem c5_witness :
    validateBody (.obj [("response_text", .str "123456789"),
                        ("learning_objective", .str "objective")]) =
      .ok .lengthOutOfRange ∧
    validateBody (.obj [("response_text", .str "1234567890"),
                        ("learning_objective", .str "objective")]) ≠
      .ok .lengthOutOfRange := by
  constructor
  · exact c5_response_length_bounds.2.1 _ (fun h => JSValue.noConfusion h)
      (Or.inl (by decide))
  · exact c5_response_length_bounds.2.2.1 _ (fun h => JSValue.noConfusion h)
      (Or.inl (by decide))

/-- Claim C6: a non-success upstream HTTP status makes the handler return
502 with the upstream body text truncated to at most 300 characters in the
detail field. -/
theorem c6_upstream_error
    (parse : String → Option JSValue) (stringify : JSValue → String)
    (req : WorkerRequest) (apiKey : Option String) (up : UpstreamResponse)
    (body : JSValue) (a b : String) (c : List JSValue)
    (hm : req.method = "POST")
    (ho : strOptTruthy (isAllowedOrigin (req.originHeader.getD "")) = true)
    (hb : req.bodyJSON = some body)
    (hv : validateBody body = .ok (.valid a b c))
    (hk : apiKey.getD "" ≠ "")
    (hup : up.ok = false) :
    fetchHandler parse stringify req apiKey up =
      .ok { status := 502,
            body := .json (.obj [("error", .str "OpenAI error"),
                                 ("detail", .str (jsSlice up.errText 300))]),
            headers := ("Content-Type", "application/json") ::
              corsHeaders (isAllowedOrigin (req.originHeader.getD "")) } ∧
    (jsSlice up.errText 300).length ≤ 300 := by
  constructor
  · simp only [fetchHandler]
    rw [hm, ho]
    simp only [reduceIte, String.reduceEq, ne_eq, not_false_iff, not_true,
      Bool.true_eq_false, if_true, if_false]
    rw [hb]
    dsimp only
    rw [hv]
    dsimp only
    rw [if_neg hk, if_pos hup]
  · exact aux_jsSlice_le _ _

/-- Witness for C6 at a concrete failing upstream. -/
theorem c6_witness :
    fetchHandler (fun _ => none) (fun _ => "")
        { method := "POST", originHeader := some "http://localhost:8080",
          bodyJSON := some (.obj [("response_text", .str "1234567890"),
                                  ("learning_objective", .str "obj")]) }
        (some "sk-test")
        { ok := false, errText := "boom", respJSON := none } =
      .ok { status := 502,
            body := .json (.obj [("error", .str "OpenAI error"),
                                 ("detail", .str (jsSlice "boom" 300))]),
            headers := ("Content-Type", "application/json") ::
              corsHeaders (isAllowedOrigin
                ((some "http://localhost:8080" : Option String).getD "")) } :=
  (c6_upstream_error (fun _ => none) (fun _ => "")
      { method := "POST", originHeader := some "http://localhost:8080",
        bodyJSON := some (.obj [("response_text", .str "1234567890"),
                                ("learning_objective", .str "obj")]) }
      (some "sk-test") { ok := false, errText := "boom", respJSON := none }
      (.obj [("response_text", .str "1234567890"),
             ("learning_objective", .str "obj")])
      "1234567890" "obj" []
      rfl (by decide) rfl rfl (by decide) rfl).1

/-- Counterexample for C10: a request body that is JSON null makes the
member access `body.response_text` throw an uncaught TypeError, so the
handler raises instead of returning an HTTP response. -/
theorem c10_counterexample :
    fetchHandler (fun _ => none) (fun _ => "")
        { method := "POST", originHeader := some "http://localhost:3000",
          bodyJSON := some JSValue.null }
        (some "sk-test")
        { ok := true, errText := "", respJSON := none } =
      Except.error () := rfl

/-- Claim C10 (amended): for every POST request with an allowed origin whose
body parses as any JSON value other than null — booleans, numbers, strings,
arrays, objects — the input-validation stage totally evaluates without
throwing, and the handler returns an HTTP response rather than raising,
provided the upstream envelope, when one is consulted, is present and is
itself not JSON null. -/
theorem c10_validation_total_non_null (v : JSValue) (hv : v ≠ .null) :
    (∃ vr, validateBody v = .ok vr) ∧
    (∀ (parse : String → Option JSValue) (stringify : JSValue → String)
       (hdr : Option String) (apiKey : Option String) (up : UpstreamResponse),
      strOptTruthy (isAllowedOrigin (hdr.getD "")) = true →
      (up.ok = true → ∃ d, up.respJSON = some d ∧ d ≠ JSValue.null) →
      ∃ r, fetchHandler parse stringify
          { method := "POST", originHeader := hdr, bodyJSON := some v }
          apiKey up = .ok r) := by
  have hval : ∃ vr, validateBody v = .ok vr := by
    rw [aux_validateBody_eq v hv]
    split
    · exact ⟨_, rfl⟩
    · split
      · exact ⟨_, rfl⟩
      · exact ⟨_, rfl⟩
  refine ⟨hval, ?_⟩
  intro parse stringify hdr apiKey up ho hup
  simp only [fetchHandler]
  rw [ho]
  simp only [reduceIte, String.reduceEq, ne_eq, not_false_iff, not_true,
    Bool.true_eq_false, if_true, if_false]
  obtain ⟨vr, hvr⟩ := hval
  rw [hvr]
  cases vr with
  | lengthOutOfRange => exact ⟨_, rfl⟩
  | missingObjective => exact ⟨_, rfl⟩
  | valid a b c =>
    by_cases hk : apiKey.getD "" = ""
    · rw [if_pos hk]
      exact ⟨_, rfl⟩
    · rw [if_neg hk]
      by_cases hok : up.ok = false
      · rw [if_pos hok]
        exact ⟨_, rfl⟩
      · rw [if_neg hok]
        have hok' : up.ok = true := by
          revert hok
          cases up.ok <;> simp
        obtain ⟨d, hd, hdn⟩ := hup hok'
        rw [hd]
        dsimp only
        obtain ⟨s, hs⟩ := aux_jsonTextOf_exists d hdn
        rw [hs]
        dsimp only
        cases hp : parse s with
        | none => exact ⟨_, rfl⟩
        | some parsed => exact ⟨_, rfl⟩

/-- Witness for C10 at a concrete boolean body. -/
theorem c10_witness :
    ∃ r, fetchHandler (fun _ => none) (fun _ => "")
        { method := "POST", originHeader := some "http://localhost:3000",
          bodyJSON := some (JSValue.bool true) }
        (some "sk-test")
        { ok := true, errText := "", respJSON := some (JSValue.obj []) } =
      .ok r := by
  obtain ⟨-, h2⟩ := c10_validation_total_non_null (JSValue.bool true)
    (fun h => JSValue.noConfusion h)
  exact h2 (fun _ => none) (fun _ => "") (some "http://localhost:3000")
    (some "sk-test") { ok := true, errText := "", respJSON := some (JSValue.obj []) }
    (by decide)
    (fun _ => ⟨JSValue.obj [], rfl, fun h => JSValue.noConfusion h⟩)

/-- An envelope carrying the text in the top-level convenience field
extracts to the trimmed text. -/
theorem aux_shapeA_text (t : String) :
    jsonTextOf (.obj [("output_text", .str t)]) = .ok (jsTrim t) := by
  rw [aux_jsonTextOf_ne_null _ (fun h => JSValue.noConfusion h)]
  have hA : topText (.obj [("output_text", .str t)]) = jsTrim t := rfl
  rw [hA]
  by_cases hts : jsTrim t = ""
  · rw [if_pos hts, hts]
    rfl
  · rw [if_neg hts]

/-- An envelope carrying the text only as the first content part of the
first output item extracts to the same trimmed text. -/
theorem aux_shapeB_text (t : String) :
    jsonTextOf (.obj [("output",
        .arr [.obj [("content", .arr [.obj [("text", .str t)]])]])]) =
      .ok (jsTrim t) := by
  rw [aux_jsonTextOf_ne_null _ (fun h => JSValue.noConfusion h)]
  have hB : topText (.obj [("output",
      .arr [.obj [("content", .arr [.obj [("text", .str t)]])]])]) = "" := rfl
  rw [hB, if_pos rfl]
  by_cases hts : jsTrim t = ""
  · have hE : extractTextFromResponsesOutput (.obj [("output",
        .arr [.obj [("content", .arr [.obj [("text", .str t)]])]])]) = "" := by
      simp [extractTextFromResponsesOutput, Bind.bind, Except.bind, scanItems,
        scanContent, contentPartText, getField, lookupField, truthy, hts]
    rw [hE, hts]
  · have hE : extractTextFromResponsesOutput (.obj [("output",
        .arr [.obj [("content", .arr [.obj [("text", .str t)]])]])]) = jsTrim t := by
      simp [extractTextFromResponsesOutput, Bind.bind, Except.bind, scanItems,
        scanContent, contentPartText, getField, lookupField, truthy, hts]
    rw [hE]

/-- When the upstream envelope extracts to text that parses as JSON, the
handler returns 200 with the parsed value as the body. -/
theorem aux_handler_200
    (parse : String → Option JSValue) (stringify : JSValue → String)
    (req : WorkerRequest) (apiKey : Option String) (up : UpstreamResponse)
    (body : JSValue) (a b : String) (c : List JSValue)
    (data : JSValue) (jt : String) (v : JSValue)
    (hm : req.method = "POST")
    (ho : strOptTruthy (isAllowedOrigin (req.originHeader.getD "")) = true)
    (hb : req.bodyJSON = some body)
    (hv : validateBody body = .ok (.valid a b c))
    (hk : apiKey.getD "" ≠ "")
    (hup : up.ok = true)
    (hd : up.respJSON = some data)
    (hjt : jsonTextOf data = .ok jt)
    (hp : parse jt = some v) :
    fetchHandler parse stringify req apiKey up =
      .ok { status := 200, body := .json v,
            headers := ("Content-Type", "application/json") ::
              corsHeaders (isAllowedOrigin (req.originHeader.getD "")) } := by
  simp only [fetchHandler]
  rw [hm, ho]
  simp only [reduceIte, String.reduceEq, ne_eq, not_false_iff, not_true,
    Bool.true_eq_false, if_true, if_false]
  rw [hb]
  dsimp only
  rw [hv]
  dsimp only
  rw [if_neg hk]
  have hup' : ¬ up.ok = false := by simp [hup]
  rw [if_neg hup', hd]
  dsimp only
  rw [hjt]
  dsimp only
  rw [hp]

/-- Counterexample for C3: a JSON-null envelope makes the top-level field
access throw instead of yielding the empty string, and (with a serializer
that, like JSON.stringify, distinguishes the two envelope shapes) the two
shapes produce different responses when the embedded text is not JSON,
because the diagnostic preview serialises the whole envelope. -/
theorem c3_counterexample :
    jsonTextOf JSValue.null = Except.error () ∧
    fetchHandler (fun _ => none)
        (fun v => match v with
          | .obj (("output_text", _) :: _) => "envelope-shape-top"
          | _ => "envelope-shape-items")
        { method := "POST", originHeader := some "http://localhost:3000",
          bodyJSON := some (.obj [("response_text", .str "1234567890"),
                                  ("learning_objective", .str "obj")]) }
        (some "sk-test")
        { ok := true, errText := "",
          respJSON := some (.obj [("output_text", .str "notjson")]) } ≠
      fetchHandler (fun _ => none)
        (fun v => match v with
          | .obj (("output_text", _) :: _) => "envelope-shape-top"
          | _ => "envelope-shape-items")
        { method := "POST", originHeader := some "http://localhost:3000",
          bodyJSON := some (.obj [("response_text", .str "1234567890"),
                                  ("learning_objective", .str "obj")]) }
        (some "sk-test")
        { ok := true, errText := "",
          respJSON := some (.obj [("output",
            .arr [.obj [("content", .arr [.obj [("text", .str "notjson")]])]])]) } := by
  refine ⟨rfl, ?_⟩
  intro h
  have hp := congrArg (fun x =>
    match x with
    | Except.ok r =>
      match r.body with
      | Body.json (.obj (_ :: _ :: (_, .str p) :: _)) => p
      | _ => ""
    | _ => "") h
  exact absurd hp (by decide)

/-- Claim C3 (amended): extraction tries the top-level field first and falls
back to scanning output items for the first non-blank text, trimmed; any
missing or malformed field yields the empty string rather than an exception
for every non-null envelope (a JSON-null envelope instead throws at the
top-level access); the two carrier shapes extract identical text, and hence
produce identical responses whenever the extracted text parses as JSON. -/
theorem c3_extraction_shapes :
    (∀ d : JSValue, d ≠ .null → ∃ s, jsonTextOf d = .ok s)
  ∧ (∀ (fields : List (String × JSValue)) (s : String),
      lookupField fields "output_text" = some (.str s) → jsTrim s ≠ "" →
      jsonTextOf (.obj fields) = .ok (jsTrim s))
  ∧ (∀ fields : List (String × JSValue),
      (∀ s, lookupField fields "output_text" = some (.str s) → jsTrim s = "") →
      jsonTextOf (.obj fields) =
        .ok (extractTextFromResponsesOutput (.obj fields)))
  ∧ (∀ t : String,
      jsonTextOf (.obj [("output_text", .str t)]) =
      jsonTextOf (.obj [("output",
        .arr [.obj [("content", .arr [.obj [("text", .str t)]])]])]))
  ∧ (∀ (parse : String → Option JSValue) (stringify : JSValue → String)
       (req : WorkerRequest) (apiKey : Option String) (e : String)
       (body : JSValue) (a b : String) (c : List JSValue)
       (t : String) (v : JSValue),
      req.method = "POST" →
      strOptTruthy (isAllowedOrigin (req.originHeader.getD "")) = true →
      req.bodyJSON = some body →
      validateBody body = .ok (.valid a b c) →
      apiKey.getD "" ≠ "" →
      parse (jsTrim t) = some v →
      fetchHandler parse stringify req apiKey
          { ok := true, errText := e,
            respJSON := some (.obj [("output_text", .str t)]) } =
      fetchHandler parse stringify req apiKey
          { ok := true, errText := e,
            respJSON := some (.obj [("output",
              .arr [.obj [("content", .arr [.obj [("text", .str t)]])]])]) }) := by
  refine ⟨aux_jsonTextOf_exists, ?_, ?_, ?_, ?_⟩
  · intro fields s h h2
    have ht : topText (.obj fields) = jsTrim s := by
      unfold topText
      rw [aux_fieldOf_obj, h]
    rw [aux_jsonTextOf_ne_null _ (fun hh => JSValue.noConfusion hh), ht,
      if_neg h2]
  · intro fields h
    have ht : topText (.obj fields) = "" := by
      unfold topText
      rw [aux_fieldOf_obj]
      cases hl : lookupField fields "output_text" with
      | none => rfl
      | some w => cases w <;> first | exact h _ hl | rfl
    rw [aux_jsonTextOf_ne_null _ (fun hh => JSValue.noConfusion hh), ht,
      if_pos rfl]
  · intro t
    rw [aux_shapeA_text, aux_shapeB_text]
  · intro parse stringify req apiKey e body a b c t v hm ho hb hv hk hp
    have h1 := aux_handler_200 parse stringify req apiKey
      { ok := true, errText := e,
        respJSON := some (.obj [("output_text", .str t)]) }
      body a b c (.obj [("output_text", .str t)]) (jsTrim t) v
      hm ho hb hv hk rfl rfl (aux_shapeA_text t) hp
    have h2 := aux_handler_200 parse stringify req apiKey
      { ok := true, errText := e,
        respJSON := some (.obj [("output",
          .arr [.obj [("content", .arr [.obj [("text", .str t)]])]])]) }
      body a b c
      (.obj [("output", .arr [.obj [("content", .arr [.obj [("text", .str t)]])]])])
      (jsTrim t) v
      hm ho hb hv hk rfl rfl (aux_shapeB_text t) hp
    rw [h1, h2]

/-- Witness for C3: the top-level field, when a non-blank string, is used
and trimmed. -/
theorem c3_witness :
    jsonTextOf (.obj [("output_text", JSValue.str " hello ")]) =
      .ok (jsTrim " hello ") :=
  c3_extraction_shapes.2.1 [("output_text", JSValue.str " hello ")] " hello "
    rfl (by decide)

/-- Claim C4: whenever the upstream success envelope's extracted text does
not parse as JSON (the empty string included), the handler returns 500 with
the fixed error, the extracted text truncated to at most 400 characters,
and the serialized envelope truncated to at most 800 characters — and does
not throw. -/
theorem c4_non_json_diagnostic
    (parse : String → Option JSValue) (stringify : JSValue → String)
    (req : WorkerRequest) (apiKey : Option String) (up : UpstreamResponse)
    (body : JSValue) (a b : String) (c : List JSValue)
    (data : JSValue) (jt : String)
    (hm : req.method = "POST")
    (ho : strOptTruthy (isAllowedOrigin (req.originHeader.getD "")) = true)
    (hb : req.bodyJSON = some body)
    (hv : validateBody body = .ok (.valid a b c))
    (hk : apiKey.getD "" ≠ "")
    (hup : up.ok = true)
    (hd : up.respJSON = some data)
    (hjt : jsonTextOf data = .ok jt)
    (hp : parse jt = none) :
    fetchHandler parse stringify req apiKey up =
      .ok { status := 500,
            body := .json (.obj [("error", .str "Model returned non-JSON"),
                                 ("raw", .str (jsSlice jt 400)),
                                 ("openai_response_preview",
                                  .str (jsSlice (stringify data) 800))]),
            headers := ("Content-Type", "application/json") ::
              corsHeaders (isAllowedOrigin (req.originHeader.getD "")) } ∧
    (jsSlice jt 400).length ≤ 400 ∧
    (jsSlice (stringify data) 800).length ≤ 800 := by
  refine ⟨?_, aux_jsSlice_le _ _, aux_jsSlice_le _ _⟩
  simp only [fetchHandler]
  rw [hm, ho]
  simp only [reduceIte, String.reduceEq, ne_eq, not_false_iff, not_true,
    Bool.true_eq_false, if_true, if_false]
  rw [hb]
  dsimp only
  rw [hv]
  dsimp only
  rw [if_neg hk]
  have hup' : ¬ up.ok = false := by simp [hup]
  rw [if_neg hup', hd]
  dsimp only
  rw [hjt]
  dsimp only
  rw [hp]

/-- Witness for C4: an empty envelope, whose two extraction shapes both
yield nothing, with a parser that rejects the empty string. -/
theorem c4_witness :
    fetchHandler (fun _ => none) (fun _ => "stub-envelope")
        { method := "POST", originHeader := some "http://localhost:3000",
          bodyJSON := some (.obj [("response_text", .str "1234567890"),
                                  ("learning_objective", .str "obj")]) }
        (some "sk-test")
        { ok := true, errText := "", respJSON := some (JSValue.obj []) } =
      .ok { status := 500,
            body := .json (.obj [("error", .str "Model returned non-JSON"),
                                 ("raw", .str (jsSlice "" 400)),
                                 ("openai_response_preview",
                                  .str (jsSlice "stub-envelope" 800))]),
            headers := ("Content-Type", "application/json") ::
              corsHeaders (isAllowedOrigin
                ((some "http://localhost:3000" : Option String).getD "")) } :=
  (c4_non_json_diagnostic (fun _ => none) (fun _ => "stub-envelope")
      { method := "POST", originHeader := some "http://localhost:3000",
        bodyJSON := some (.obj [("response_text", .str "1234567890"),
                                ("learning_objective", .str "obj")]) }
      (some "sk-test")
      { ok := true, errText := "", respJSON := some (JSValue.obj []) }
      (.obj [("response_text", .str "1234567890"),
             ("learning_objective", .str "obj")])
      "1234567890" "obj" [] (JSValue.obj []) ""
      rfl (by decide) rfl rfl (by decide) rfl rfl rfl rfl).1

/-- Claim C9: when the extracted text parses as any JSON value — objects,
arrays, numbers, strings, booleans, null alike, with no validation against
the Verdict schema — the handler returns 200 whose body is exactly that
parsed value, to be re-serialized unchanged. -/
theorem c9_parse_success_round_trip
    (parse : String → Option JSValue) (stringify : JSValue → String)
    (req : WorkerRequest) (apiKey : Option String) (up : UpstreamResponse)
    (body : JSValue) (a b : String) (c : List JSValue)
    (data : JSValue) (jt : String) (v : JSValue)
    (hm : req.method = "POST")
    (ho : strOptTruthy (isAllowedOrigin (req.originHeader.getD "")) = true)
    (hb : req.bodyJSON = some body)
    (hv : validateBody body = .ok (.valid a b c))
    (hk : apiKey.getD "" ≠ "")
    (hup : up.ok = true)
    (hd : up.respJSON = some data)
    (hjt : jsonTextOf data = .ok jt)
    (hp : parse jt = some v) :
    fetchHandler parse stringify req apiKey up =
      .ok { status := 200, body := .json v,
            headers := ("Content-Type", "application/json") ::
              corsHeaders (isAllowedOrigin (req.originHeader.getD "")) } :=
  aux_handler_200 parse stringify req apiKey up body a b c data jt v
    hm ho hb hv hk hup hd hjt hp

/-- Witness for C9: the model returns the bare number 7, which is not a
Verdict-shaped object, and it is passed through unchanged. -/
theorem c9_witness :
    fetchHandler (fun s => if s = "7" then some (JSValue.num 7) else none)
        (fun _ => "")
        { method := "POST", originHeader := some "http://localhost:3000",
          bodyJSON := some (.obj [("response_text", .str "1234567890"),
                                  ("learning_objective", .str "obj")]) }
        (some "sk-test")
        { ok := true, errText := "",
          respJSON := some (.obj [("output_text", .str "7")]) } =
      .ok { status := 200, body := .json (JSValue.num 7),
            headers := ("Content-Type", "application/json") ::
              corsHeaders (isAllowedOrigin
                ((some "http://localhost:3000" : Option String).getD "")) } :=
  c9_parse_success_round_trip
      (fun s => if s = "7" then some (JSValue.num 7) else none) (fun _ => "")
      { method := "POST", originHeader := some "http://localhost:3000",
        bodyJSON := some (.obj [("response_text", .str "1234567890"),
                                ("learning_objective", .str "obj")]) }
      (some "sk-test")
      { ok := true, errText := "",
        respJSON := some (.obj [("output_text", .str "7")]) }
      (.obj [("response_text", .str "1234567890"),
             ("learning_objective", .str "obj")])
      "1234567890" "obj" [] (.obj [("output_text", .str "7")]) "7" (JSValue.num 7)
      rfl (by decide) rfl rfl (by decide) rfl rfl rfl rfl
